import Mathlib

/-!
Shallow embedding of the FinTracker AI backend (three Python modules:
`ai_backend/main.py`, `ai_backend/tools/youtube_processor.py`,
`ai_backend/tools/statement_reader.py`).

External services (the Gemini model calls, the YouTube Data API, the
transcript service, the standard-library JSON decoder) are modelled as
oracle functions passed in explicitly; everything the repository itself
computes is translated directly from the source.
-/

namespace FinTracker

/-- Model of a decoded Python/JSON value, as produced by `json.loads`:
JSON objects become dicts, arrays become lists, strings/numbers/booleans
and `null` become the corresponding scalars.  Numbers are modelled as
integers (no claim depends on numeric values). -/
inductive JValue where
  | null : JValue
  | bool (b : Bool) : JValue
  | num (n : Int) : JValue
  | str (s : String) : JValue
  | arr (elems : List JValue) : JValue
  | obj (fields : List (String × JValue)) : JValue

/-- Model of a Python exception flowing through a handler body: either a
`fastapi.HTTPException` (status code plus detail string) or any other
exception carrying its message. -/
inductive PyExc where
  | http (status : Nat) (detail : String) : PyExc
  | other (msg : String) : PyExc
deriving DecidableEq, Repr

/-- Model of Python `str(e)` on an exception: Starlette's `HTTPException`
renders as `"<status>: <detail>"`; any other exception renders its message. -/
def pyStrExc : PyExc → String
  | .http status detail => Nat.repr status ++ ": " ++ detail
  | .other msg => msg

/-- Truthiness of a Python `Optional[str]`: `None` and `""` are falsy. -/
def pyTruthy : Option String → Bool
  | none => false
  | some s => s != ""

/-- Containment of one character list in another: the needle is a prefix of
some suffix of the haystack. -/
def listContains (needle : List Char) : List Char → Bool
  | [] => needle.isPrefixOf []
  | c :: rest => needle.isPrefixOf (c :: rest) || listContains needle rest

/-- Model of the Python substring test `needle in hay` on strings. -/
def pyIn (needle hay : String) : Bool :=
  listContains needle.data hay.data

/-- Model of Python `s.startswith(pre)`. -/
def pyStartsWith (s pre : String) : Bool :=
  pre.data.isPrefixOf s.data

/-! ### `tools/statement_reader.py` -/

/-- Model of `read_statement(image_bytes, customer_message)`.  The Gemini
`generate_content` call (together with the mime-type detection and the
base64 round-trip, which only shape the request payload) is the oracle
`call`; image bytes are a list of byte values.  On success the function
returns `response.text` (a Python `str`); on any exception it returns the
dict `{"transactions": []}`. -/
def read_statement (call : List Nat → Option String → Except String String)
    (image_bytes : List Nat) (customer_message : Option String) : JValue :=
  match call image_bytes customer_message with
  | .ok t => .str t
  | .error _ => .obj [("transactions", .arr [])]

/-! ### `tools/youtube_processor.py` — URL parsing

`extract_video_id` runs `re.search` with two patterns:
  1. `(?:youtube\.com\/watch\?v=|youtu\.be\/|youtube\.com\/embed\/|youtube\.com\/v\/|youtube\.com\/watch\?.*v=)([^&\n?#]+)`
  2. `(?:youtube\.com\/shorts\/)([^&\n?#]+)`
The model below implements exactly this matcher on lists of characters:
leftmost start position wins, alternatives are tried in order at each
position, `.*` is greedy (longest first, never crossing a newline), and
the capture group `[^&\n?#]+` greedily takes the maximal non-empty run of
characters outside `&`, newline, `?`, `#`. -/

/-- Characters excluded by the capture class `[^&\n?#]`. -/
def isDelim (c : Char) : Bool :=
  c = '&' || c = '\n' || c = '?' || c = '#'

/-- Greedy match of the capture group `([^&\n?#]+)`: the maximal run of
non-delimiter characters, failing when that run is empty. -/
def capture (cs : List Char) : Option (List Char) :=
  let tk := cs.takeWhile (fun c => !isDelim c)
  if tk.isEmpty then none else some tk

/-- Match a literal at the current position, returning the rest. -/
def stripLit (lit : List Char) (cs : List Char) : Option (List Char) :=
  if lit.isPrefixOf cs then some (cs.drop lit.length) else none

/-- Match the tail `.*v=([^&\n?#]+)` of the fifth alternative: greedy `.*`
(longest prefix not containing a newline) followed by the literal `v=`
and the capture group, backtracking to shorter prefixes on failure. -/
def matchDotStarVEq (tail : List Char) : Option (List Char) :=
  ((List.range (tail.length + 1)).reverse).findSome? fun k =>
    if (tail.take k).all (fun c => c ≠ '\n') && (tail.drop k).take 2 = ['v', '='] then
      capture (tail.drop (k + 2))
    else
      none

/-- Try the five alternatives of the first pattern at one position. -/
def p1At (cs : List Char) : Option (List Char) :=
  (stripLit "youtube.com/watch?v=".data cs >>= capture) <|>
  (stripLit "youtu.be/".data cs >>= capture) <|>
  (stripLit "youtube.com/embed/".data cs >>= capture) <|>
  (stripLit "youtube.com/v/".data cs >>= capture) <|>
  (stripLit "youtube.com/watch?".data cs >>= matchDotStarVEq)

/-- Try the single alternative of the second pattern at one position. -/
def p2At (cs : List Char) : Option (List Char) :=
  stripLit "youtube.com/shorts/".data cs >>= capture

/-- Model of `re.search`: try every start position left to right. -/
def searchPat (patAt : List Char → Option (List Char)) : List Char → Option (List Char)
  | [] => patAt []
  | c :: rest =>
    match patAt (c :: rest) with
    | some r => some r
    | none => searchPat patAt rest

/-- Model of `extract_video_id(youtube_url)`: the first pattern is searched
over the whole URL; only if it finds no match is the second pattern tried. -/
def extract_video_id (youtube_url : String) : Option String :=
  match searchPat p1At youtube_url.data with
  | some cap => some (String.mk cap)
  | none =>
    match searchPat p2At youtube_url.data with
    | some cap => some (String.mk cap)
    | none => none

/-! ### `tools/youtube_processor.py` — metadata -/

/-- Fields of the first item's snippet in the YouTube Data API response
that `get_video_metadata` reads.  Each is optional: a `none` models the
corresponding key being absent from the response (which in Python raises
`KeyError` during the dict construction).  An absent `snippet`/`thumbnails`
sub-object behaves identically to all its fields being absent. -/
structure Snippet where
  title : Option String
  maxresThumbnailUrl : Option String
  tags : Option (List String)
  publishedAt : Option String
deriving DecidableEq, Repr

/-- The metadata record built by `get_video_metadata`. -/
structure Metadata where
  title : String
  thumbnail_url : String
  video_url : String
  tags : List String
  publish_date : Option String
deriving DecidableEq, Repr

/-- Model of `get_video_metadata(video_id)`.  The YouTube Data API request
(`build` + `videos().list(...).execute()`) is the oracle `api`:
`.error ()` models any raised `HttpError` or other exception, `.ok none`
models a response without a usable `items[0]`, and `.ok (some sn)` models
a response whose first item carries the given (possibly partial) snippet.
The Python code first binds a default record, then tries to overwrite it
from the response; any missing key raises `KeyError`, which the handlers
catch, returning the untouched default. -/
def get_video_metadata (api : Except Unit (Option Snippet)) (video_id : String) :
    Metadata :=
  let metadata : Metadata :=
    { title := "Unknown Title"
      thumbnail_url := "https://img.youtube.com/vi/" ++ video_id ++ "/maxresdefault.jpg"
      video_url := "https://www.youtube.com/watch?v=" ++ video_id
      tags := []
      publish_date := none }
  match api with
  | .error _ => metadata
  | .ok none => metadata
  | .ok (some sn) =>
    match sn.title, sn.maxresThumbnailUrl, sn.tags, sn.publishedAt with
    | some t, some th, some tg, some p =>
      { title := t
        thumbnail_url := th
        tags := tg
        publish_date := some p
        video_url := "https://www.youtube.com/watch?v=" ++ video_id }
    | _, _, _, _ => metadata

/-! ### `tools/youtube_processor.py` — transcripts -/

/-- Failure modes of the transcript service, mirroring the exception types
of `youtube_transcript_api`: `TranscriptsDisabled`, `NoTranscriptFound`,
and any other exception with its message. -/
inductive TErr where
  | disabled : TErr
  | notFound : TErr
  | other (msg : String) : TErr
deriving DecidableEq, Repr

/-- One transcript segment.  Only `text` is ever consumed by the code
(the timestamp fields of the real segments are never read). -/
structure Segment where
  text : String
deriving DecidableEq, Repr

/-- A transcript handle: `fetch` models `transcript.fetch()`, which either
returns the segment list or raises. -/
structure Transcript where
  fetch : Except TErr (List Segment)

/-- The transcript list returned by `list_transcripts`: `find_transcript`
models `transcript_list.find_transcript(language_codes)`, which either
returns a transcript handle or raises. -/
structure TranscriptList where
  find_transcript : List String → Except TErr Transcript

/-- The error strings produced by the `except` clauses of
`get_video_transcript`. -/
def transcriptErrMsg : TErr → String
  | .disabled => "Transcripts are disabled for this video."
  | .notFound => "No transcript found for this video."
  | .other msg => "Error fetching transcript: " ++ msg

/-- Model of `get_video_transcript(video_id)`.  The oracle `api` is the
result of `YouTubeTranscriptApi.list_transcripts(video_id)` (which may
itself raise).  The inner bare `except:` falls back from `["en"]` to
`["en-US", "en-GB"]` on any failure of the first `find_transcript`; any
exception escaping the body is mapped to `([], message)` by the outer
handlers. -/
def get_video_transcript (api : Except TErr TranscriptList) :
    List Segment × Option String :=
  match api with
  | .error e => ([], some (transcriptErrMsg e))
  | .ok transcript_list =>
    let chosen : Except TErr Transcript :=
      match transcript_list.find_transcript ["en"] with
      | .ok t => .ok t
      | .error _ => transcript_list.find_transcript ["en-US", "en-GB"]
    match chosen with
    | .error e => ([], some (transcriptErrMsg e))
    | .ok transcript =>
      match transcript.fetch with
      | .error e => ([], some (transcriptErrMsg e))
      | .ok transcript_data => (transcript_data, none)

/-! ### `tools/youtube_processor.py` — concatenation and summary -/

/-- Model of Python `sep.join(pieces)`: pieces in original order with the
separator between consecutive pieces, empty list giving the empty string. -/
def pyJoin (sep : String) : List String → String
  | [] => ""
  | [a] => a
  | a :: rest => a ++ sep ++ pyJoin sep rest

/-- Model of `concatenate_transcript(transcript_data)`:
`" ".join([segment.text for segment in transcript_data])`. -/
def concatenate_transcript (transcript_data : List Segment) : String :=
  pyJoin " " (transcript_data.map (fun segment => segment.text))

/-- Model of `generate_summary(transcript_text, video_metadata)`.  The
Gemini call (prompt construction included) is the oracle `call`; on
success the model's text is returned, on any exception a fixed fallback
string.  The metadata parameter is accepted and unused, as in the source. -/
def generate_summary (call : String → Except Unit String)
    (transcript_text : String) (video_metadata : Metadata) : String :=
  match call transcript_text with
  | .ok t => t
  | .error _ => "Failed to generate summary. Please try again later."

/-! ### `tools/youtube_processor.py` — pipeline -/

/-- The external services consumed by the YouTube pipeline, keyed the way
the source calls them: metadata lookup and transcript listing by video id,
summary generation by transcript text. -/
structure YtEnv where
  metadataApi : String → Except Unit (Option Snippet)
  transcriptApi : String → Except TErr TranscriptList
  geminiSummary : String → Except Unit String

/-- The dict returned by `process_youtube_video`, with optional fields for
keys that are absent on some paths (`metadata` is absent when the URL does
not parse; `summary` is present only on success; `error` only on failure). -/
structure ProcResult where
  success : Bool
  error : Option String
  metadata : Option Metadata
  summary : Option String

/-- Model of `process_youtube_video(youtube_url)`: extract the video id,
fetch metadata (never failing), fetch the transcript, and — only when the
transcript is present and non-empty — concatenate it and generate the
summary.  `if error:` is Python truthiness on the error string. -/
def process_youtube_video (env : YtEnv) (youtube_url : String) : ProcResult :=
  match extract_video_id youtube_url with
  | none =>
    { success := false
      error := some "Invalid YouTube URL. Could not extract video ID."
      metadata := none
      summary := none }
  | some video_id =>
    let metadata := get_video_metadata (env.metadataApi video_id) video_id
    let tr := get_video_transcript (env.transcriptApi video_id)
    let transcript_data := tr.1
    let error := tr.2
    if pyTruthy error then
      { success := false, error := error, metadata := some metadata, summary := none }
    else if transcript_data.isEmpty then
      { success := false
        error := some "No transcript data available for this video."
        metadata := some metadata
        summary := none }
    else
      let transcript_text := concatenate_transcript transcript_data
      let summary := generate_summary env.geminiSummary transcript_text metadata
      { success := true, error := none, metadata := some metadata, summary := some summary }

/-! ### `main.py` — chat endpoint -/

/-- An uploaded multipart file: the declared content type (absent when the
client sends none, in which case `content_type.startswith` raises
`AttributeError`) and the bytes returned by `file.read()`. -/
structure UploadFile where
  content_type : Option String
  contents : List Nat

/-- External functions consumed by the chat handler: the Gemini call made
by `read_statement`, and the standard-library `json.loads` decoder (an
oracle mapping a string to a decoded value or a raised decode error). -/
structure ChatEnv where
  statementCall : List Nat → Option String → Except String String
  jsonLoads : String → Except String JValue

/-- Model of `process_image(file, message)`:
`json.loads(read_statement(contents, message))["transactions"]`, with any
exception re-raised as `HTTPException(500, "Error processing image: ...")`.
`json.loads` applied to the non-`str` failure value of `read_statement`
raises `TypeError`; a missing `"transactions"` key raises `KeyError`;
subscripting a non-dict decode result raises `TypeError`. -/
def process_image (env : ChatEnv) (file : UploadFile) (message : Option String) :
    Except PyExc JValue :=
  let inner : Except PyExc JValue :=
    match read_statement env.statementCall file.contents message with
    | .str s =>
      match env.jsonLoads s with
      | .ok (JValue.obj fields) =>
        match fields.lookup "transactions" with
        | some v => .ok v
        | none => .error (.other "KeyError: transactions")
      | .ok _ => .error (.other "TypeError: value is not subscriptable by string")
      | .error m => .error (.other m)
    | _ => .error (.other "TypeError: the JSON object must be str, bytes or bytearray")
  match inner with
  | .ok v => .ok v
  | .error e => .error (.http 500 ("Error processing image: " ++ pyStrExc e))

/-- The observable outcome of the chat endpoint: either the success
envelope `{response, data, task_type}` or an `HTTPException` response. -/
inductive ChatResult where
  | success (response : String) (data : List JValue) (task_type : String) : ChatResult
  | httpError (status : Nat) (detail : String) : ChatResult

/-- Model of the `chat` endpoint.  The body builds the extracted
transaction list (a decoded dict is wrapped into a one-element list, a
decoded list passes through, anything else leaves the initial `[]`), and
raises `HTTPException(400, ...)` for an unsupported content type or a
missing file and message.  The in-memory `messages` list the body also
builds is dead code (nothing reads it; the live model call is commented
out), so it is not modelled.  Crucially, the surrounding
`except Exception as e: raise HTTPException(status_code=500, detail=str(e))`
catches every exception raised in the body — `HTTPException` included —
so the body's 400s are re-raised as 500s carrying `str(e)`. -/
def chat (env : ChatEnv) (file : Option UploadFile) (message : Option String) :
    ChatResult :=
  let body : Except PyExc (List JValue) :=
    match file with
    | some f =>
      match f.content_type with
      | none => .error (.other "AttributeError: NoneType object has no attribute startswith")
      | some ct =>
        if pyStartsWith ct "image/" then
          match process_image env f message with
          | .ok ocr_text =>
            .ok (match ocr_text with
              | JValue.obj fields => [JValue.obj fields]
              | JValue.arr elems => elems
              | _ => [])
          | .error e => .error e
        else
          .error (.http 400 "Unsupported file type. Please upload an image file.")
    | none => .ok []
  match body with
  | .error e => .httpError 500 (pyStrExc e)
  | .ok extracted_transactions =>
    if file.isNone && !pyTruthy message then
      .httpError 500 (pyStrExc (.http 400 "No file or message provided"))
    else
      .success "I have updated the transactions" extracted_transactions "add_transactions"

/-! ### `main.py` — YouTube summary endpoint -/

/-- The observable outcome of the YouTube summary endpoint: the success
envelope or an `HTTPException` response (which carries only a status code
and a detail string — in particular no metadata). -/
inductive YtResult where
  | success (response : String) (title : String) (thumbnail_url : String)
      (video_url : String) (summary : String) (tags : List String)
      (publish_date : Option String) (task_type : String) : YtResult
  | httpError (status : Nat) (detail : String) : YtResult
deriving DecidableEq, Repr

/-- Model of the `youtube_summary` endpoint.  The URL check is Python's
`not request.url or "youtube.com" not in request.url and "youtu.be" not in
request.url`, i.e. `(not url) or ((A not in url) and (B not in url))` by
precedence.  Unlike `chat`, this handler re-raises `HTTPException`
unchanged (`except HTTPException: raise`) and maps only other exceptions
to 500. -/
def youtube_summary (env : YtEnv) (url : String) : YtResult :=
  let body : Except PyExc YtResult :=
    if (url == "") || (!pyIn "youtube.com" url && !pyIn "youtu.be" url) then
      .error (.http 400 "Invalid YouTube URL. Please provide a valid YouTube video URL.")
    else
      let result := process_youtube_video env url
      if !result.success then
        match result.error with
        | some e => .error (.http 400 e)
        | none => .error (.other "KeyError: error")
      else
        match result.metadata, result.summary with
        | some m, some s =>
          .ok (.success "Successfully processed YouTube video" m.title m.thumbnail_url
            m.video_url s m.tags m.publish_date "youtube_summary")
        | _, _ => .error (.other "KeyError: metadata or summary")
  match body with
  | .ok r => r
  | .error (.http status detail) => .httpError status detail
  | .error (.other m) => .httpError 500 ("Error processing YouTube video: " ++ m)

/-! ### Concrete environments used by the witnesses -/

/-- A metadata response with every field present. -/
def demoSnippet : Snippet :=
  { title := "T", maxresThumbnailUrl := "TH", tags := ["tag"],
    publishedAt := some "2020-01-01" }

/-- A transcript whose fetch succeeds with two segments. -/
def demoTranscript : Transcript := ⟨.ok [⟨"hello"⟩, ⟨"world"⟩]⟩

/-- A transcript list on which every `find_transcript` succeeds. -/
def demoTranscriptList : TranscriptList := ⟨fun _ => .ok demoTranscript⟩

/-- An environment where every external call succeeds. -/
def demoYtEnv : YtEnv :=
  { metadataApi := fun _ => .ok (some demoSnippet)
    transcriptApi := fun _ => .ok demoTranscriptList
    geminiSummary := fun _ => .ok "SUMMARY" }

/-- An environment where listing transcripts raises `TranscriptsDisabled`. -/
def disabledYtEnv : YtEnv :=
  { demoYtEnv with transcriptApi := fun _ => .error TErr.disabled }

/-- An environment where the transcript fetch succeeds with zero segments. -/
def emptyTranscriptYtEnv : YtEnv :=
  { demoYtEnv with transcriptApi := fun _ => .ok ⟨fun _ => .ok ⟨.ok []⟩⟩ }

/-- A chat environment whose oracles are never consulted on the paths that
reject the request before any external call. -/
def unusedChatEnv : ChatEnv :=
  { statementCall := fun _ _ => .error "unused", jsonLoads := fun _ => .error "unused" }

/-- A chat environment whose extraction yields a single transaction dict
under the `transactions` key. -/
def dictChatEnv : ChatEnv :=
  { statementCall := fun _ _ => .ok "RAW"
    jsonLoads := fun _ =>
      .ok (JValue.obj [("transactions", JValue.obj [("amount", JValue.num 5)])]) }

/-- A chat environment whose extraction yields a list of transactions. -/
def listChatEnv : ChatEnv :=
  { statementCall := fun _ _ => .ok "RAW"
    jsonLoads := fun _ =>
      .ok (JValue.obj [("transactions",
        JValue.arr [JValue.obj [("amount", JValue.num 5)],
          JValue.obj [("amount", JValue.num 7)]])]) }

/-- A chat environment whose extraction yields a string under the
`transactions` key (neither dict nor list). -/
def strChatEnv : ChatEnv :=
  { statementCall := fun _ _ => .ok "RAW"
    jsonLoads := fun _ => .ok (JValue.obj [("transactions", JValue.str "oops")]) }

/-! ### Helper lemmas -/

/-- Unfolding of `pyJoin` on a list with at least two elements. -/
theorem pyJoin_cons_cons (sep a b : String) (l : List String) :
    pyJoin sep (a :: b :: l) = a ++ sep ++ pyJoin sep (b :: l) := rfl

/-- Python `sep.join` distributes over concatenation of non-empty lists. -/
theorem pyJoin_append (sep : String) :
    ∀ xs ys : List String, xs ≠ [] → ys ≠ [] →
      pyJoin sep (xs ++ ys) = pyJoin sep xs ++ sep ++ pyJoin sep ys := by
  intro xs
  induction xs with
  | nil => intro ys h _; exact absurd rfl h
  | cons a t ih =>
    intro ys _ hys
    cases t with
    | nil =>
      cases ys with
      | nil => exact absurd rfl hys
      | cons y ty => simp [pyJoin]
    | cons b t2 =>
      cases ys with
      | nil => exact absurd rfl hys
      | cons y ty =>
        have ih2 := ih (y :: ty) (by simp) (by simp)
        simp only [List.cons_append] at ih2 ⊢
        rw [pyJoin_cons_cons sep a b (t2 ++ y :: ty), pyJoin_cons_cons sep a b t2, ih2]
        simp [String.append_assoc]

/-- Every error message produced by the transcript fetcher is non-empty. -/
theorem transcriptErrMsg_ne_empty : ∀ e : TErr, transcriptErrMsg e ≠ "" := by
  intro e
  cases e with
  | disabled => decide
  | notFound => decide
  | other m =>
    intro h
    have hlen := congrArg String.length h
    simp [transcriptErrMsg, String.length_append] at hlen
    exact absurd hlen.1 (by decide)

/-- A URL containing one of the platform substrings is non-empty. -/
theorem url_ne_empty_of_pyIn (url : String)
    (h : pyIn "youtube.com" url = true ∨ pyIn "youtu.be" url = true) :
    (url == "") = false := by
  apply beq_eq_false_iff_ne.mpr
  intro hq
  subst hq
  rcases h with h | h <;> exact absurd h (by decide)

/-! ### Claim theorems -/

/-- C6: `concatenate_transcript` is a pure function joining segment texts
with a single space in original order; the empty list yields the empty
string, a singleton yields its own text, and joining the concatenations of
two non-empty lists by a single space equals concatenating the combined
list directly — in particular for `[A, B]` and `[C]`. -/
theorem concatenate_transcript_spec :
    concatenate_transcript [] = "" ∧
    (∀ A : Segment, concatenate_transcript [A] = A.text) ∧
    (∀ xs ys : List Segment, xs ≠ [] → ys ≠ [] →
      concatenate_transcript xs ++ " " ++ concatenate_transcript ys =
        concatenate_transcript (xs ++ ys)) ∧
    (∀ A B C : Segment,
      concatenate_transcript [A, B] ++ " " ++ concatenate_transcript [C] =
        concatenate_transcript [A, B, C]) := by
  refine ⟨rfl, fun A => rfl, ?_, ?_⟩
  · intro xs ys hxs hys
    rw [concatenate_transcript, concatenate_transcript, concatenate_transcript,
      List.map_append]
    exact (pyJoin_append " " _ _ (by simpa using hxs) (by simpa using hys)).symm
  · intro A B C
    rw [concatenate_transcript, concatenate_transcript, concatenate_transcript]
    simp [pyJoin, String.append_assoc]

/-- C6 witness: the non-empty-list law evaluated at concrete segments. -/
theorem concatenate_transcript_spec_witness :
    concatenate_transcript [⟨"a"⟩] ++ " " ++ concatenate_transcript [⟨"b"⟩] =
      concatenate_transcript [⟨"a"⟩, ⟨"b"⟩] :=
  concatenate_transcript_spec.2.2.1 [⟨"a"⟩] [⟨"b"⟩] (by simp) (by simp)

/-- C7: `read_statement` returns the external model's response text
unparsed on success, and the empty-transactions fallback dict
`{"transactions": []}` on any failure of the model call, never raising. -/
theorem read_statement_spec :
    ∀ (call : List Nat → Option String → Except String String)
      (image_bytes : List Nat) (customer_message : Option String),
      (∀ t, call image_bytes customer_message = .ok t →
        read_statement call image_bytes customer_message = .str t) ∧
      (∀ m, call image_bytes customer_message = .error m →
        read_statement call image_bytes customer_message =
          .obj [("transactions", .arr [])]) := by
  intro call b m
  constructor
  · intro t h; simp [read_statement, h]
  · intro e h; simp [read_statement, h]

/-- C7 witness: both branches evaluated at concrete calls. -/
theorem read_statement_spec_witness :
    read_statement (fun _ _ => .ok "TXT") [] none = .str "TXT" ∧
    read_statement (fun _ _ => .error "boom") [] none =
      .obj [("transactions", .arr [])] :=
  ⟨(read_statement_spec (fun _ _ => .ok "TXT") [] none).1 "TXT" rfl,
   (read_statement_spec (fun _ _ => .error "boom") [] none).2 "boom" rfl⟩

/-- Failure of the external metadata lookup: a raised exception, a
response without items, or a response whose first item is missing one of
the consumed fields. -/
def metadataLookupFails (api : Except Unit (Option Snippet)) : Prop :=
  api = .error () ∨ api = .ok none ∨
    ∃ sn, api = .ok (some sn) ∧
      (sn.title = none ∨ sn.maxresThumbnailUrl = none ∨ sn.tags = none ∨
        sn.publishedAt = none)

/-- C4: `get_video_metadata` never raises (it is a total function in this
model), and on any failure of the external lookup — raised error, missing
items, or missing fields — it returns the default record: title
`"Unknown Title"`, empty tags, no publish date, and identifier-derived
thumbnail and video URLs. -/
theorem get_video_metadata_default_on_failure :
    ∀ (video_id : String) (api : Except Unit (Option Snippet)),
      metadataLookupFails api →
      get_video_metadata api video_id =
        { title := "Unknown Title"
          thumbnail_url := "https://img.youtube.com/vi/" ++ video_id ++ "/maxresdefault.jpg"
          video_url := "https://www.youtube.com/watch?v=" ++ video_id
          tags := []
          publish_date := none } := by
  intro vid api h
  rcases h with h | h | ⟨sn, h, hf⟩ <;> subst h
  · rfl
  · rfl
  · obtain ⟨t, th, tg, p⟩ := sn
    cases t <;> cases th <;> cases tg <;> cases p <;>
      simp_all [get_video_metadata]

/-- C4 witness: the default record at a concrete failing lookup. -/
theorem get_video_metadata_default_on_failure_witness :
    get_video_metadata (Except.error ()) "abc" =
      { title := "Unknown Title"
        thumbnail_url := "https://img.youtube.com/vi/abc/maxresdefault.jpg"
        video_url := "https://www.youtube.com/watch?v=abc"
        tags := []
        publish_date := none } :=
  get_video_metadata_default_on_failure "abc" (Except.error ()) (Or.inl rfl)

/-- C5: `get_video_transcript` never raises (total in this model); it
selects the `["en"]` transcript first and falls back to
`["en-US", "en-GB"]` only when that selection fails; every failure yields
the empty segment list together with the exact message of the failure
(`TranscriptsDisabled`, `NoTranscriptFound`, or the generic fetch error),
which is always non-empty, while success carries `none` as the error. -/
theorem get_video_transcript_spec :
    ∀ api : Except TErr TranscriptList,
      (∀ e, api = .error e →
        get_video_transcript api = ([], some (transcriptErrMsg e))) ∧
      (∀ tl, api = .ok tl →
        (∀ t segs, tl.find_transcript ["en"] = .ok t → t.fetch = .ok segs →
          get_video_transcript api = (segs, none)) ∧
        (∀ t e, tl.find_transcript ["en"] = .ok t → t.fetch = .error e →
          get_video_transcript api = ([], some (transcriptErrMsg e))) ∧
        (∀ e1 t segs, tl.find_transcript ["en"] = .error e1 →
          tl.find_transcript ["en-US", "en-GB"] = .ok t → t.fetch = .ok segs →
          get_video_transcript api = (segs, none)) ∧
        (∀ e1 t e, tl.find_transcript ["en"] = .error e1 →
          tl.find_transcript ["en-US", "en-GB"] = .ok t → t.fetch = .error e →
          get_video_transcript api = ([], some (transcriptErrMsg e))) ∧
        (∀ e1 e2, tl.find_transcript ["en"] = .error e1 →
          tl.find_transcript ["en-US", "en-GB"] = .error e2 →
          get_video_transcript api = ([], some (transcriptErrMsg e2)))) ∧
      (transcriptErrMsg .disabled = "Transcripts are disabled for this video." ∧
       transcriptErrMsg .notFound = "No transcript found for this video." ∧
       (∀ m, transcriptErrMsg (.other m) = "Error fetching transcript: " ++ m) ∧
       (∀ e, transcriptErrMsg e ≠ "")) := by
  intro api
  refine ⟨?_, ?_, rfl, rfl, fun m => rfl, transcriptErrMsg_ne_empty⟩
  · intro e h; subst h; rfl
  · intro tl h
    subst h
    refine ⟨?_, ?_, ?_, ?_, ?_⟩
    · intro t segs h1 h2; simp [get_video_transcript, h1, h2]
    · intro t e h1 h2; simp [get_video_transcript, h1, h2]
    · intro e1 t segs h1 h2 h3; simp [get_video_transcript, h1, h2, h3]
    · intro e1 t e h1 h2 h3; simp [get_video_transcript, h1, h2, h3]
    · intro e1 e2 h1 h2; simp [get_video_transcript, h1, h2]

/-- C5 witness: the disabled case and a successful English fetch. -/
theorem get_video_transcript_spec_witness :
    get_video_transcript (Except.error TErr.disabled) =
      ([], some "Transcripts are disabled for this video.") ∧
    get_video_transcript (Except.ok demoTranscriptList) =
      ([⟨"hello"⟩, ⟨"world"⟩], none) :=
  ⟨(get_video_transcript_spec (Except.error TErr.disabled)).1 TErr.disabled rfl,
   ((get_video_transcript_spec (Except.ok demoTranscriptList)).2.1
      demoTranscriptList rfl).1 demoTranscript [⟨"hello"⟩, ⟨"world"⟩] rfl rfl⟩

/-- C1 (code bug): with neither file nor message, and with a
`"application/pdf"` file, the chat endpoint responds with HTTP status 500
— not 400 — because the handler's blanket `except Exception` catches its
own `HTTPException(400, ...)` and re-raises it as
`HTTPException(500, str(e))`. -/
theorem chat_missing_input_maps_400_to_500 :
    chat unusedChatEnv none none =
      .httpError 500 "400: No file or message provided" ∧
    chat unusedChatEnv (some ⟨some "application/pdf", []⟩) (some "hello") =
      .httpError 500 "400: Unsupported file type. Please upload an image file." :=
  ⟨rfl, rfl⟩

/-- C2 counterexample: for the URL
`"https://notyoutube.com/watch?v=abc"` the substring validation passes
(`"youtube.com"` occurs inside `"notyoutube.com"`), the video id `"abc"`
is extracted, and with an all-success environment the processing pipeline
runs to completion — the handler does not return the 400
`"Invalid YouTube URL..."` response the claim asserts. -/
theorem youtube_summary_notyoutube_counterexample :
    youtube_summary demoYtEnv "https://notyoutube.com/watch?v=abc" =
      YtResult.success "Successfully processed YouTube video" "T" "TH"
        "https://www.youtube.com/watch?v=abc" "SUMMARY" ["tag"]
        (some "2020-01-01") "youtube_summary" ∧
    youtube_summary demoYtEnv "https://notyoutube.com/watch?v=abc" ≠
      YtResult.httpError 400
        "Invalid YouTube URL. Please provide a valid YouTube video URL." := by
  have h1 : youtube_summary demoYtEnv "https://notyoutube.com/watch?v=abc" =
      YtResult.success "Successfully processed YouTube video" "T" "TH"
        "https://www.youtube.com/watch?v=abc" "SUMMARY" ["tag"]
        (some "2020-01-01") "youtube_summary" := rfl
  refine ⟨h1, ?_⟩
  rw [h1]
  intro h
  exact YtResult.noConfusion h

/-- C2 amended: for every URL that contains neither `"youtube.com"` nor
`"youtu.be"` as a substring, the YouTube summary handler fails with HTTP
400 and the detail `"Invalid YouTube URL. Please provide a valid YouTube
video URL."` without running the processing pipeline (the result does not
depend on the environment of external services). -/
theorem youtube_summary_invalid_url_rejected :
    ∀ (env : YtEnv) (url : String),
      pyIn "youtube.com" url = false → pyIn "youtu.be" url = false →
      youtube_summary env url =
        .httpError 400 "Invalid YouTube URL. Please provide a valid YouTube video URL." := by
  intro env url h1 h2
  simp [youtube_summary, h1, h2]

/-- C2 amended witness: a URL with no platform substring is rejected. -/
theorem youtube_summary_invalid_url_rejected_witness :
    youtube_summary demoYtEnv "https://example.com/watch?v=abc" =
      .httpError 400 "Invalid YouTube URL. Please provide a valid YouTube video URL." :=
  youtube_summary_invalid_url_rejected demoYtEnv "https://example.com/watch?v=abc"
    (by decide) (by decide)

/-- C3: whenever the URL passes the substring validation and yields a
video id, and transcript retrieval fails with a (non-empty) message, the
YouTube summary handler responds with HTTP 400 whose detail is exactly
that message.  The error response constructor carries only the status and
the detail string, so the already-fetched metadata does not appear in the
response. -/
theorem youtube_summary_transcript_failure_400 :
    ∀ (env : YtEnv) (url video_id e : String),
      (pyIn "youtube.com" url = true ∨ pyIn "youtu.be" url = true) →
      extract_video_id url = some video_id →
      (get_video_transcript (env.transcriptApi video_id)).2 = some e →
      e ≠ "" →
      youtube_summary env url = .httpError 400 e := by
  intro env url video_id e hv hid herr hne
  have hurl := url_ne_empty_of_pyIn url hv
  have hbe : (e == "") = false := beq_eq_false_iff_ne.mpr hne
  have hcond :
      ((url == "") || (!pyIn "youtube.com" url && !pyIn "youtu.be" url)) = false := by
    rcases hv with h | h <;> simp [hurl, h]
  simp [youtube_summary, hcond, process_youtube_video, hid, pyTruthy, herr, hbe, hne]

/-- C3 witness: a valid short-link URL whose video has transcripts
disabled yields 400 with the exact disabled message. -/
theorem youtube_summary_transcript_failure_400_witness :
    youtube_summary disabledYtEnv "https://youtu.be/dQw4w9WgXcQ" =
      .httpError 400 "Transcripts are disabled for this video." :=
  youtube_summary_transcript_failure_400 disabledYtEnv "https://youtu.be/dQw4w9WgXcQ"
    "dQw4w9WgXcQ" "Transcripts are disabled for this video."
    (Or.inr (by decide)) (by decide) rfl (by decide)

/-- C8: when the chat handler processes an image successfully, the decoded
value under the `transactions` key is normalized into the response's data
list: a single dict becomes a one-element list containing that dict, and a
list passes through unchanged. -/
theorem chat_normalizes_extracted_transactions :
    ∀ (env : ChatEnv) (f : UploadFile) (message : Option String) (ct s : String)
      (fields : List (String × JValue)) (v : JValue),
      f.content_type = some ct →
      pyStartsWith ct "image/" = true →
      env.statementCall f.contents message = .ok s →
      env.jsonLoads s = .ok (JValue.obj fields) →
      fields.lookup "transactions" = some v →
      ((∀ d, v = JValue.obj d →
          chat env (some f) message =
            .success "I have updated the transactions" [JValue.obj d]
              "add_transactions") ∧
       (∀ l, v = JValue.arr l →
          chat env (some f) message =
            .success "I have updated the transactions" l "add_transactions")) := by
  intro env f message ct s fields v hct hsw hcall hjson hlook
  constructor
  · intro d hd
    subst hd
    simp [chat, process_image, read_statement, hct, hsw, hcall, hjson, hlook]
  · intro l hl
    subst hl
    simp [chat, process_image, read_statement, hct, hsw, hcall, hjson, hlook]

/-- C8 witness: the dict case and the list case at concrete environments. -/
theorem chat_normalizes_extracted_transactions_witness :
    chat dictChatEnv (some ⟨some "image/png", [1]⟩) (some "hi") =
      .success "I have updated the transactions"
        [JValue.obj [("amount", JValue.num 5)]] "add_transactions" ∧
    chat listChatEnv (some ⟨some "image/png", [1]⟩) (some "hi") =
      .success "I have updated the transactions"
        [JValue.obj [("amount", JValue.num 5)], JValue.obj [("amount", JValue.num 7)]]
        "add_transactions" :=
  ⟨(chat_normalizes_extracted_transactions dictChatEnv ⟨some "image/png", [1]⟩
      (some "hi") "image/png" "RAW" [("transactions", JValue.obj [("amount", JValue.num 5)])]
      (JValue.obj [("amount", JValue.num 5)]) rfl (by decide) rfl rfl rfl).1
      [("amount", JValue.num 5)] rfl,
   (chat_normalizes_extracted_transactions listChatEnv ⟨some "image/png", [1]⟩
      (some "hi") "image/png" "RAW"
      [("transactions", JValue.arr [JValue.obj [("amount", JValue.num 5)],
        JValue.obj [("amount", JValue.num 7)]])]
      (JValue.arr [JValue.obj [("amount", JValue.num 5)],
        JValue.obj [("amount", JValue.num 7)]]) rfl (by decide) rfl rfl rfl).2
      [JValue.obj [("amount", JValue.num 5)], JValue.obj [("amount", JValue.num 7)]] rfl⟩

/-- C9 (implicit): when the URL passes validation and yields a video id
and transcript retrieval succeeds with an empty segment list,
`process_youtube_video` returns `success = false` with the error
`"No transcript data available for this video."` (a fourth failure case
beyond the transcript-fetcher taxonomy), the endpoint surfaces it as HTTP
400, and the summarizer is never invoked (the result is independent of
the summary oracle). -/
theorem process_youtube_video_empty_transcript :
    ∀ (env : YtEnv) (url video_id : String),
      (pyIn "youtube.com" url = true ∨ pyIn "youtu.be" url = true) →
      extract_video_id url = some video_id →
      get_video_transcript (env.transcriptApi video_id) = ([], none) →
      (process_youtube_video env url =
        { success := false
          error := some "No transcript data available for this video."
          metadata := some (get_video_metadata (env.metadataApi video_id) video_id)
          summary := none } ∧
       youtube_summary env url =
         .httpError 400 "No transcript data available for this video." ∧
       (∀ g, process_youtube_video { env with geminiSummary := g } url =
          process_youtube_video env url)) := by
  intro env url video_id hv hid htr
  have hurl := url_ne_empty_of_pyIn url hv
  have hcond :
      ((url == "") || (!pyIn "youtube.com" url && !pyIn "youtu.be" url)) = false := by
    rcases hv with h | h <;> simp [hurl, h]
  have hproc : process_youtube_video env url =
      { success := false
        error := some "No transcript data available for this video."
        metadata := some (get_video_metadata (env.metadataApi video_id) video_id)
        summary := none } := by
    simp [process_youtube_video, hid, htr, pyTruthy]
  refine ⟨hproc, ?_, ?_⟩
  · simp [youtube_summary, hcond, hproc]
  · intro g
    rw [hproc]
    simp [process_youtube_video, hid, htr, pyTruthy]

/-- C9 witness: the empty-transcript environment at a concrete URL. -/
theorem process_youtube_video_empty_transcript_witness :
    youtube_summary emptyTranscriptYtEnv "https://youtu.be/dQw4w9WgXcQ" =
      .httpError 400 "No transcript data available for this video." :=
  (process_youtube_video_empty_transcript emptyTranscriptYtEnv
    "https://youtu.be/dQw4w9WgXcQ" "dQw4w9WgXcQ"
    (Or.inr (by decide)) (by decide) rfl).2.1

/-- C10 (implicit): when the decoded value under the `transactions` key is
neither a dict nor a list, the normalization silently keeps the extracted
transactions empty, and the chat handler still returns the successful
envelope with an empty data list. -/
theorem chat_non_dict_non_list_yields_empty_data :
    ∀ (env : ChatEnv) (f : UploadFile) (message : Option String) (ct s : String)
      (fields : List (String × JValue)) (v : JValue),
      f.content_type = some ct →
      pyStartsWith ct "image/" = true →
      env.statementCall f.contents message = .ok s →
      env.jsonLoads s = .ok (JValue.obj fields) →
      fields.lookup "transactions" = some v →
      (∀ d, v ≠ JValue.obj d) →
      (∀ l, v ≠ JValue.arr l) →
      chat env (some f) message =
        .success "I have updated the transactions" [] "add_transactions" := by
  intro env f message ct s fields v hct hsw hcall hjson hlook hnd hnl
  cases v with
  | obj d => exact absurd rfl (hnd d)
  | arr l => exact absurd rfl (hnl l)
  | null => simp [chat, process_image, read_statement, hct, hsw, hcall, hjson, hlook]
  | bool b => simp [chat, process_image, read_statement, hct, hsw, hcall, hjson, hlook]
  | num n => simp [chat, process_image, read_statement, hct, hsw, hcall, hjson, hlook]
  | str t => simp [chat, process_image, read_statement, hct, hsw, hcall, hjson, hlook]

/-- C10 witness: a string under the `transactions` key yields a successful
response with empty data. -/
theorem chat_non_dict_non_list_yields_empty_data_witness :
    chat strChatEnv (some ⟨some "image/png", [1]⟩) (some "hi") =
      .success "I have updated the transactions" [] "add_transactions" :=
  chat_non_dict_non_list_yields_empty_data strChatEnv ⟨some "image/png", [1]⟩
    (some "hi") "image/png" "RAW" [("transactions", JValue.str "oops")]
    (JValue.str "oops") rfl (by decide) rfl rfl rfl
    (fun d h => JValue.noConfusion h) (fun l h => JValue.noConfusion h)

end FinTracker
